import Mathlib

/-!
Verification development for the helpline bot (`src/app/main.py`).

The Python program classifies an incoming message with ordered
case-insensitive regex groups, redacts risk-bearing content with `re.sub`,
keeps a bounded per-conversation history, and either short-circuits to a
fixed crisis payload or forwards the dialog to a generative backend.

The embedding below models the regex dialect actually used by the pattern
sets (literals, alternation, classes, `\b`, `\s* \w+ \W* .*`, an optional
group and one negative single-character lookahead), Python's
`re.IGNORECASE` over ASCII and Cyrillic, `re.search` (leftmost match,
backtracking preference order) and `re.sub` (leftmost non-overlapping
replacement scan over the original string), and the handler
`text_handler` as a pure function of the per-conversation state.
-/

namespace HelplineBot

/-- Lowercasing as `re.IGNORECASE` needs it for the alphabets that occur in
the patterns and inputs: ASCII letters and Cyrillic А..Я and Ё. -/
def lowc (c : Char) : Char :=
  if 'A' ≤ c ∧ c ≤ 'Z' then Char.ofNat (c.toNat + 32)
  else if 'А' ≤ c ∧ c ≤ 'Я' then Char.ofNat (c.toNat + 32)
  else if c = 'Ё' then 'ё'
  else c

/-- Word characters for `\b`, `\w`, `\W`, covering the alphabets used by the
pattern sets and the modelled inputs: ASCII alphanumerics, underscore, and
Cyrillic letters (а..я, А..Я, ё, Ё). -/
def isWordC (c : Char) : Bool :=
  (decide ('a' ≤ c) && decide (c ≤ 'z')) ||
  (decide ('A' ≤ c) && decide (c ≤ 'Z')) ||
  (decide ('0' ≤ c) && decide (c ≤ '9')) ||
  (c == '_') ||
  (decide ('а' ≤ c) && decide (c ≤ 'я')) ||
  (decide ('А' ≤ c) && decide (c ≤ 'Я')) ||
  (c == 'ё') || (c == 'Ё')

/-- Whitespace for `\s` (the ASCII whitespace characters; the inputs and
patterns modelled here use no exotic Unicode spaces). -/
def isSpaceC (c : Char) : Bool :=
  (c == ' ') || (c == '\t') || (c == '\n') || (c == '\r') ||
  (c == '\x0b') || (c == '\x0c')

/-- Regex abstract syntax for the dialect used in `src/app/main.py`. -/
inductive Re where
  | eps : Re
  | char (p : Char → Bool) : Re
  | seq (r₁ r₂ : Re) : Re
  | alt (r₁ r₂ : Re) : Re
  | star (r : Re) : Re
  | wordB : Re
  | negLook (r : Re) : Re

/-- Optional word-character test (text boundaries count as non-word). -/
def isWordOpt : Option Char → Bool
  | none => false
  | some c => isWordC c

/-- Backtracking matcher.  State is `(rp, s)` where `rp` is the reversed
text to the left of the current position (context for `\b`) and `s` the
remaining text.  Returns the list of states after a match, in Python's
backtracking preference order (alternation left-first, `*` greedy).  The
fuel bounds recursion depth; callers supply fuel exceeding any reachable
depth, and star iterations that consume nothing are dropped exactly as
Python never repeats an empty loop body. -/
def runS : Nat → Re → List Char → List Char → List (List Char × List Char)
  | 0, _, _, _ => []
  | f + 1, r, rp, s =>
    match r with
    | .eps => [(rp, s)]
    | .char p =>
      match s with
      | [] => []
      | c :: s' => if p c then [(c :: rp, s')] else []
    | .seq r₁ r₂ => (runS f r₁ rp s).flatMap (fun q => runS f r₂ q.1 q.2)
    | .alt r₁ r₂ => runS f r₁ rp s ++ runS f r₂ rp s
    | .wordB => if isWordOpt rp.head? != isWordOpt s.head? then [(rp, s)] else []
    | .negLook r₁ => if (runS f r₁ rp s).isEmpty then [(rp, s)] else []
    | .star r₁ =>
      ((runS f r₁ rp s).filter (fun q => q.2.length < s.length)).flatMap
        (fun q => runS f (.star r₁) q.1 q.2) ++ [(rp, s)]

/-- Fuel that exceeds the recursion depth of `runS` on any of the compiled
pattern sets (each has fewer than 4096 syntax nodes). -/
def reFuel (s : List Char) : Nat := (s.length + 1) * 4096

/-- A successful `re.search`: the reversed text skipped before the match,
the matched text (`group(0)`), the reversed text left of the match end,
and the remaining text after the match. -/
structure Found where
  skipRev : List Char
  matched : List Char
  rpEnd : List Char
  rest : List Char
deriving DecidableEq, Repr

/-- Leftmost-match scan from the current position, like `re.search`:
advance one character at a time until the pattern matches, and take the
match the backtracking engine prefers there. -/
def searchAuxS (r : Re) : Nat → List Char → List Char → List Char → Option Found
  | 0, _, _, _ => none
  | f + 1, skipRev, rp, s =>
    let l := runS (reFuel s) r rp s
    if l.isEmpty then
      match s with
      | [] => none
      | c :: s' => searchAuxS r f (c :: skipRev) (c :: rp) s'
    else
      let q := l.headD ([], [])
      some ⟨skipRev, s.take (s.length - q.2.length), q.1, q.2⟩

/-- `re.search` over a whole text. -/
def searchTop (r : Re) (t : List Char) : Option Found :=
  searchAuxS r (t.length + 1) [] [] t

/-- Whether `re.search` finds any match. -/
def matchesG (r : Re) (t : List Char) : Bool := (searchTop r t).isSome

/-- `re.sub` with a constant replacement: repeatedly find the leftmost
match in the original text, emit the skipped text and the replacement, and
continue after the match (advancing one copied character after an empty
match, as Python does). -/
def pySubAuxS (r : Re) (repl : List Char) : Nat → List Char → List Char → List Char
  | 0, _, s => s
  | f + 1, rp, s =>
    match searchAuxS r (s.length + 1) [] rp s with
    | none => s
    | some res =>
      res.skipRev.reverse ++ repl ++
        (if res.matched.isEmpty then
          match res.rest with
          | [] => []
          | c :: s' => c :: pySubAuxS r repl f (c :: res.rpEnd) s'
        else pySubAuxS r repl f res.rpEnd res.rest)

/-- `IMMINENT_RE.sub(repl, t)` and friends. -/
def pySub (r : Re) (repl : List Char) (t : List Char) : List Char :=
  pySubAuxS r repl (t.length + 1) [] t

/-! Combinators translating the concrete pattern syntax. -/

/-- A literal character, compared case-insensitively. -/
def chr (c : Char) : Re := .char (fun d => lowc d == c)

/-- A literal string (the patterns are written in lowercase). -/
def lit (s : String) : Re := (s.data.map chr).foldr .seq .eps

/-- Concatenation of a list of regexes. -/
def cat (rs : List Re) : Re := rs.foldr .seq .eps

/-- Ordered alternation `a|b|…` (first alternative preferred). -/
def alts (rs : List Re) : Re := rs.foldr .alt (.char (fun _ => false))

/-- A character class of listed (lowercase) letters, case-insensitive. -/
def chrIn (s : String) : Re := .char (fun d => s.data.contains (lowc d))

/-- `\w`, `\W`, `\s`, `.` and quantifiers. -/
def wchar : Re := .char isWordC

def nwchar : Re := .char (fun c => !isWordC c)

def schar : Re := .char isSpaceC

def dotc : Re := .char (fun c => c != '\n')

def dotStar : Re := .star dotc

def sStar : Re := .star schar

def wPlus : Re := .seq wchar (.star wchar)

def wStar : Re := .star wchar

def opt (r : Re) : Re := .alt r .eps

def wb : Re := .wordB

/-- The class `[а-я]` (with `IGNORECASE` it also matches А..Я; ё is outside
the range, exactly as in Python). -/
def ruLowerRange : Re := .char (fun c => decide ('а' ≤ lowc c) && decide (lowc c ≤ 'я'))

/-! The pattern sets of `src/app/main.py` (lines 36-67), one `Re` per list
entry, combined by `"|".join` into one alternation per group. -/

def IMMINENT_PATTERNS : List Re :=
  [ cat [wb, alts [cat [lit "прямо", sStar, lit "сейчас"], lit "сейчас",
                   lit "немедленно", lit "сегодня"], wb, dotStar, wb,
         alts [cat [lit "прыгн", chrIn "ул"], lit "прыгну", lit "спрыгну",
               lit "сигану"], wb],
    cat [wb, alts [lit "иду", lit "пойду", lit "еду"], wb, dotStar, wb,
         alts [cat [lit "на", sStar, lit "крыш", chrIn "уеи"],
               cat [lit "к", .star nwchar, lit "мост", chrIn "ууае"]], wb],
    cat [wb, alts [cat [lit "таблетк", wPlus], cat [lit "лекарств", wPlus],
                   cat [lit "нож", opt (lit "ом")], lit "лезвие",
                   cat [lit "петл", alts [lit "я", lit "ю"]], lit "газ",
                   cat [lit "верёвк", wPlus]], wb, dotStar, wb,
         alts [lit "купил", cat [lit "наш", chrIn "её", lit "л"],
               lit "подготовил"], wb],
    cat [wb, lit "повешусь", wb],
    cat [wb, lit "перереж", alts [lit "у", lit "ь"], sStar, lit "вен",
         alts [lit "ы", lit "ы"], wb],
    cat [wb, alts [lit "сделаю", lit "совершу"], sStar, lit "суицид", wb] ]

def HIGH_RISK_PATTERNS : List Re :=
  [ cat [wb, lit "не", sStar, lit "хоч", chrIn "ую", sStar, lit "жить", wb],
    cat [wb, lit "хочу", sStar, lit "умереть", wb],
    cat [wb, lit "устал", wStar, sStar, lit "жить", wb],
    cat [wb, alts [lit "покончу", lit "покончить"], sStar,
         alts [lit "с", lit "со"], sStar, lit "собой", wb],
    cat [wb, lit "свести", sStar, lit "сч", chrIn "её", lit "ты", sStar,
         lit "с", sStar, lit "жизнью", wb],
    cat [wb, lit "суицид", .negLook ruLowerRange, wb],
    cat [wb, lit "суицидальн", wPlus, wb],
    cat [wb, lit "жизн", chrIn "ьи", sStar, lit "нет", sStar, lit "смысла", wb] ]

def NSSI_PATTERNS : List Re :=
  [ cat [wb, alts [lit "режу", cat [lit "резал", wStar]], sStar, lit "себя", wb],
    cat [wb, lit "царапаю", sStar, lit "себя", wb],
    cat [wb, lit "жг", alts [lit "у", lit "ал"], sStar, lit "себя", wb],
    cat [wb, lit "бью", sStar, lit "себя", wb],
    cat [wb, lit "самоповрежден", alts [lit "и", lit "ь"], wPlus, wb] ]

def THIRD_PERSON_PATTERNS : List Re :=
  [ cat [wb, alts [lit "он", lit "она", lit "друг", lit "подруга", lit "сын",
                   lit "дочь", lit "брат", lit "сестра", lit "муж", lit "жена"],
         wb, dotStar, wb, alts [lit "хочет", lit "решил", lit "собирается"],
         wb, dotStar, wb,
         alts [lit "умереть", cat [lit "покончи", lit "ть"], lit "суицид"],
         wb] ]

def TOXIC_PATTERNS : List Re := [cat [wb, alts [lit "ненавижу всех", lit "все уроды"], wb]]

def IMMINENT_RE : Re := alts IMMINENT_PATTERNS

def HIGH_RISK_RE : Re := alts HIGH_RISK_PATTERNS

def NSSI_RE : Re := alts NSSI_PATTERNS

def THIRD_RE : Re := alts THIRD_PERSON_PATTERNS

def TOXIC_RE : Re := alts TOXIC_PATTERNS

/-- `classify_message` (lines 69-89): first group with a match wins and its
preferred match is the evidence span. -/
def classify_message (t : List Char) : String × List Char :=
  match searchTop IMMINENT_RE t with
  | some m => ("imminent", m.matched)
  | none =>
    match searchTop HIGH_RISK_RE t with
    | some m => ("high_risk", m.matched)
    | none =>
      match searchTop NSSI_RE t with
      | some m => ("nssi", m.matched)
      | none =>
        match searchTop THIRD_RE t with
        | some m => ("third_person", m.matched)
        | none =>
          match searchTop TOXIC_RE t with
          | some m => ("toxic", m.matched)
          | none => ("ok", [])

/-! Fixed texts of the program (copied verbatim from `src/app/main.py`). -/

def EMERGENCY_RESOURCES_HTML : String :=
  "<b>Если есть риск для жизни — немедленно звоните 112.</b>\n\n" ++
  "<b>Москва и МО — круглосуточно:</b>\n" ++
  "• Телефон неотложной психологической помощи: <b>051</b> (с городского) / <b>8&nbsp;(495)&nbsp;051</b> (с мобильного)\n" ++
  "• Экстренная медико-психологическая помощь (ПКБ №1 им. Алексеева): <b>+7&nbsp;(499)&nbsp;791-20-50</b>\n" ++
  "• Психологическая помощь МЧС: <b>+7&nbsp;(495)&nbsp;989-50-50</b>\n" ++
  "• Детский телефон доверия: <b>8-800-2000-122</b> или короткий <b>124</b>\n" ++
  "• Универсальный номер экстренных служб РФ: <b>112</b>\n\n" ++
  "<i>Звонки анонимны там, где указано. Бот не заменяет профессиональную помощь.</i>"

def SAFETY_FOOTER_HTML : String :=
  "\n\n<b>Если состояние ухудшается или есть риск — звоните 112 или 051, либо см. /resources.</b>"

def SYSTEM_PROMPT : String :=
  "Ты русскоязычный консультант по психологической поддержке. " ++
  "Цель: снизить стресс, повысить безопасность, предложить шаги самопомощи и направить к профессиональной помощи.\n" ++
  "Поведение:\n" ++
  "• Говори просто и бережно. Отражай чувства. Не ставь диагнозы. Не поощряй вред и употребление веществ.\n" ++
  "• Если слышны признаки риска — мягко рекомендуй немедленную помощь и номер 112. " ++
  "• Давай конкретные техники самопомощи: дыхание 4-4-6, заземление 5-4-3-2-1, план на ближайший час, связь с поддерживающим человеком.\n" ++
  "• В конце ответа добавляй краткий «футер безопасности» с номерами для Москвы и МО: 112, 051/8(495)051, ПКБ №1 +7(499)791-20-50, МЧС +7(495)989-50-50, Детский 8-800-2000-122.\n" ++
  "• Избегай запретов и морализаторства; фокус на поддержке и безопасности."

def TOXIC_ACK : String :=
  "Понимаю злость. Давайте говорить уважительно — так будет продуктивнее."

def FALLBACK_REPLY : String :=
  "Не удалось обратиться к модели. Базовая поддержка:\n" ++
  "1) Дыхание 4-4-6 2–3 минуты.\n" ++
  "2) Запишите три конкретные задачи на ближайший час.\n" ++
  "3) Свяжитесь с близким. Если риск усиливается — 112 или 051.\n"

/-- Keys of the `CRISIS_PRESETS` dict.  Besides the label strings, the
handler's lookup expression `CRISIS_PRESETS[...]` uses the `Ellipsis`
singleton as a key, so the key type carries it explicitly. -/
inductive PresetKey where
  | k (s : String) : PresetKey
  | ell : PresetKey
deriving DecidableEq

/-- `CRISIS_PRESETS` (lines 93-120). -/
def CRISIS_PRESETS : List (PresetKey × String) :=
  [ (.k "imminent",
     "<b>Похоже, есть непосредственная опасность.</b>\n" ++
     "Если вы сейчас в небезопасном месте — <b>переместитесь в безопасное</b> и <b>наберите 112</b>.\n\n" ++
     "Можно сказать: «Мне нужна срочная психологическая помощь».\n\n" ++
     EMERGENCY_RESOURCES_HTML ++
     "\n\n<b>Могу спросить?</b> Вы один или рядом кто-то есть? Можете убрать потенциально опасные предметы и остаться на связи?"),
    (.k "high_risk",
     "<b>Вижу, что очень тяжело.</b> Вам не нужно с этим оставаться одному. " ++
     "Сейчас ключевая цель — <b>снизить риск</b> и найти поддерживающий контакт.\n\n" ++
     EMERGENCY_RESOURCES_HTML ++
     "\n\nЕсли готовы, напишите, что сильнее всего давит и что помогало хотя бы немного раньше. Я отвечу поддержкой и простыми шагами."),
    (.k "nssi",
     "<b>Похоже на самоповреждение без намерения умереть.</b> Это тоже риск. " ++
     "Попробуйте переключение на 20 минут: лед в ладонях, холодная вода, медленное дыхание 4-4-6, выйти на воздух при возможности.\n\n" ++
     EMERGENCY_RESOURCES_HTML ++
     "\n\nЕсли сможете, напишите, что запускает импульс. Разберём безопасные альтернативы."),
    (.k "third_person",
     "<b>Если речь о другом человеке.</b> Проверьте, есть ли у него <b>непосредственная опасность</b>. " ++
     "Если да — вызывайте 112. Останьтесь с ним, уберите опасные предметы, говорите спокойно: " ++
     "«Я рядом. Давай позовём помощь».\n\n" ++
     EMERGENCY_RESOURCES_HTML ++
     "\n\nЕсли напишете возраст и где он сейчас, подберу более точные действия.") ]

/-- Python dict indexing `CRISIS_PRESETS[key]`: `some` is a hit, `none` is
a `KeyError`. -/
def lookupPreset (key : PresetKey) : Option String :=
  (CRISIS_PRESETS.find? (fun p => p.1 == key)).map (fun p => p.2)

/-! `build_safe_summary` (lines 232-243). -/

def REDACT_IMMINENT : String := "[описание непосредственной опасности удалено]"

def REDACT_HIGH : String := "[высокий риск]"

def REDACT_NSSI : String := "[самоповреждение]"

def SUMMARY_PREFIX : String :=
  "Ранее выявлен высокий уровень дистресса/риск. " ++
  "Избегай обсуждения методов и деталей вреда. " ++
  "Фокус: поддержка, снижение риска, техники самопомощи, настаивание к обращению за помощью. " ++
  "Сводка пользователя (очищено): "

/-- `redacted = IMMINENT_RE.sub("[описание непосредственной опасности удалено]", text)` -/
def redact1 (t : List Char) : List Char := pySub IMMINENT_RE REDACT_IMMINENT.data t

/-- `redacted = HIGH_RISK_RE.sub("[высокий риск]", redacted)` -/
def redact2 (t : List Char) : List Char := pySub HIGH_RISK_RE REDACT_HIGH.data (redact1 t)

/-- `redacted = NSSI_RE.sub("[самоповреждение]", redacted)` -/
def redact3 (t : List Char) : List Char := pySub NSSI_RE REDACT_NSSI.data (redact2 t)

/-- `build_safe_summary`: fixed instruction prefix plus `redacted[:500]`. -/
def build_safe_summary (t : List Char) : List Char :=
  SUMMARY_PREFIX.data ++ (redact3 t).take 500

/-! Conversation store and handler (lines 226-317). -/

def MAX_TURNS : Nat := 8

/-- One `{"role": r, "content": c}` entry of a `DIALOGS` list. -/
structure Msg where
  role : String
  content : List Char
deriving DecidableEq, Repr

/-- `append_turn` on one conversation's list: append, then keep only the
last `2*MAX_TURNS + 2` entries. -/
def append_turn (msgs : List Msg) (m : Msg) : List Msg :=
  let l := msgs ++ [m]
  if 2 * MAX_TURNS + 2 < l.length then l.drop (l.length - (2 * MAX_TURNS + 2)) else l

/-- `html.escape` with default quoting. -/
def htmlEscape (l : List Char) : List Char :=
  l.flatMap (fun c =>
    if c == '&' then "&amp;".data
    else if c == '<' then "&lt;".data
    else if c == '>' then "&gt;".data
    else if c == '"' then "&quot;".data
    else if c == '\'' then "&#x27;".data
    else [c])

/-- `render_with_footer`: escaped body plus the fixed safety footer. -/
def render_with_footer (reply : List Char) : List Char :=
  htmlEscape reply ++ SAFETY_FOOTER_HTML.data

/-- The per-conversation state touched by `text_handler`: the `DIALOGS`
entry for this chat id (absent and `[]` behave identically in the code)
and the `SAFE_CTX` entry for it. -/
structure ConvState where
  history : List Msg
  safeCtx : Option (List Char)
deriving DecidableEq, Repr

/-- The observable outcome of one `text_handler` run on one message:
the final conversation state, the messages sent to the user in order,
the turn list passed to `gigachat_client.chat` (if it was called), and
whether the handler escaped with an unhandled exception. -/
structure HandlerOut where
  final : ConvState
  sent : List (List Char)
  backendArg : Option (List Msg)
  backendCalled : Bool
  crashed : Bool
deriving DecidableEq, Repr

/-- `text_handler` (lines 281-317) for one inbound text on one
conversation.  The generative backend is a parameter returning either the
completion or an error payload (timeout text, HTTP error body, …).

In the crisis branch the code stores the redacted summary and then
evaluates `CRISIS_PRESETS[...]` — an `Ellipsis` lookup, which raises
`KeyError` before anything is sent, so the run ends `crashed` with no
outbound message. -/
def text_handler (st : ConvState) (t : List Char)
    (backend : List Msg → Except String (List Char)) : HandlerOut :=
  let label := (classify_message t).1
  if label ∈ ["imminent", "high_risk", "nssi", "third_person"] then
    let st1 : ConvState := { st with safeCtx := some (build_safe_summary t) }
    match lookupPreset .ell with
    | some payload =>
      { final := st1, sent := [payload.data], backendArg := none,
        backendCalled := false, crashed := false }
    | none =>
      { final := st1, sent := [], backendArg := none,
        backendCalled := false, crashed := true }
  else
    let ackSent := if label = "toxic" then [TOXIC_ACK.data] else []
    let h1 := if st.history.isEmpty
      then append_turn st.history ⟨"system", SYSTEM_PROMPT.data⟩
      else st.history
    let h2 := match st.safeCtx with
      | some s => if s.isEmpty then h1 else ⟨"system", s⟩ :: h1
      | none => h1
    let h3 := append_turn h2 ⟨"user", t⟩
    let reply := match backend h3 with
      | .ok r => r
      | .error _ => FALLBACK_REPLY.data
    let h4 := append_turn h3 ⟨"assistant", reply⟩
    { final := { history := h4, safeCtx := none },
      sent := ackSent ++ [render_with_footer reply],
      backendArg := some h3, backendCalled := true, crashed := false }

/-! Substring occurrence, executable and propositional. -/

/-- Whether `pat` is a prefix of `l` (character lists). -/
def startsWithSeg : List Char → List Char → Bool
  | [], _ => true
  | _ :: _, [] => false
  | p :: ps, c :: cs => p == c && startsWithSeg ps cs

/-- Whether `pat` occurs contiguously anywhere in `l`. -/
def occursIn (pat : List Char) : List Char → Bool
  | [] => startsWithSeg pat []
  | c :: cs => startsWithSeg pat (c :: cs) || occursIn pat cs

/-- `p` occurs verbatim as a contiguous segment of `l`. -/
def SegIn (p l : List Char) : Prop := ∃ a b, l = a ++ p ++ b

/-! Engine lemmas. -/

/-- Whatever the matcher consumes, the remaining text is a suffix of the
text it started from. -/
theorem runS_rest_suffix :
    ∀ (f : Nat) (r : Re) (rp s : List Char) (q : List Char × List Char),
      q ∈ runS f r rp s → q.2 <:+ s := by
  intro f
  induction f with
  | zero => intro r rp s q h; simp [runS] at h
  | succ f ih =>
    intro r rp s q h
    cases r with
    | eps =>
      simp [runS] at h
      simp [h]
    | char p =>
      cases s with
      | nil => simp [runS] at h
      | cons c s' =>
        simp [runS] at h
        rcases h with ⟨_, rfl⟩
        exact List.suffix_cons c s'
    | seq r₁ r₂ =>
      simp only [runS, List.mem_flatMap] at h
      rcases h with ⟨q₁, h₁, h₂⟩
      exact (ih _ _ _ _ h₂).trans (ih _ _ _ _ h₁)
    | alt r₁ r₂ =>
      simp only [runS, List.mem_append] at h
      rcases h with h | h
      · exact ih _ _ _ _ h
      · exact ih _ _ _ _ h
    | wordB =>
      simp only [runS] at h
      split at h <;> simp at h
      simp [h]
    | negLook r₁ =>
      simp only [runS] at h
      split at h <;> simp at h
      simp [h]
    | star r₁ =>
      simp only [runS, List.mem_append, List.mem_flatMap, List.mem_filter] at h
      rcases h with ⟨q₁, ⟨hq₁, _⟩, hq⟩ | h
      · exact (ih _ _ _ _ hq).trans (ih _ _ _ _ hq₁)
      · simp at h
        simp [h]

/-- The `re.search` scan decomposes its input: skipped text, match, rest. -/
theorem searchAuxS_decomp :
    ∀ (f : Nat) (r : Re) (skipRev rp s : List Char) (res : Found),
      searchAuxS r f skipRev rp s = some res →
      res.skipRev.reverse ++ res.matched ++ res.rest = skipRev.reverse ++ s := by
  intro f
  induction f with
  | zero => intro r skipRev rp s res h; simp [searchAuxS] at h
  | succ f ih =>
    intro r skipRev rp s res h
    simp only [searchAuxS] at h
    by_cases hemp : (runS (reFuel s) r rp s).isEmpty = true
    · rw [if_pos hemp] at h
      cases s with
      | nil => simp at h
      | cons c s' =>
        have hrec := ih r (c :: skipRev) (c :: rp) s' res h
        rw [hrec]
        simp
    · rw [if_neg hemp] at h
      cases hrun : runS (reFuel s) r rp s with
      | nil => rw [hrun] at hemp; simp at hemp
      | cons q qs =>
        rw [hrun] at h
        simp only [List.headD_cons] at h
        injection h with h
        subst h
        obtain ⟨u, hu⟩ := runS_rest_suffix _ _ _ _ _ (hrun ▸ List.mem_cons_self q qs)
        subst hu
        simp only [Found.mk.injEq]
        have hl : (u ++ q.2).length - q.2.length = u.length := by simp
        rw [hl, List.take_left, List.append_assoc]

/-- `searchTop` decomposes the whole text. -/
theorem searchTop_decomp {r : Re} {t : List Char} {res : Found}
    (h : searchTop r t = some res) :
    res.skipRev.reverse ++ res.matched ++ res.rest = t := by
  simpa using searchAuxS_decomp _ _ _ _ _ _ h

/-- When a regex has no match anywhere, `re.sub` is the identity. -/
theorem pySub_of_search_none {r : Re} {repl t : List Char}
    (h : searchTop r t = none) : pySub r repl t = t := by
  rw [pySub, pySubAuxS]
  rw [show searchAuxS r (t.length + 1) [] [] t = searchTop r t from rfl, h]

/-- When a regex matches, `re.sub`'s output contains the replacement. -/
theorem pySub_placeholder {r : Re} {repl t : List Char} {res : Found}
    (h : searchTop r t = some res) :
    ∃ a b, pySub r repl t = a ++ repl ++ b := by
  rw [pySub, pySubAuxS]
  rw [show searchAuxS r (t.length + 1) [] [] t = searchTop r t from rfl, h]
  exact ⟨res.skipRev.reverse, _, rfl⟩

/-! Conversation-store lemmas. -/

/-- `append_turn` always keeps the turn it just appended as the last one. -/
theorem append_turn_getLast (h : List Msg) (m : Msg) :
    (append_turn h m).getLast? = some m := by
  simp only [append_turn]
  split
  · next hlt =>
    have hle : (h ++ [m]).length - (2 * MAX_TURNS + 2) ≤ h.length := by
      simp only [List.length_append, List.length_cons, List.length_nil]
      omega
    rw [List.drop_append_of_le_length hle, List.getLast?_concat]
  · exact List.getLast?_concat _

/-- Below the bound, `append_turn` is plain append. -/
theorem append_turn_of_le (h : List Msg) (m : Msg)
    (hlen : h.length + 1 ≤ 2 * MAX_TURNS + 2) : append_turn h m = h ++ [m] := by
  simp only [append_turn]
  rw [if_neg]
  simp only [List.length_append, List.length_cons, List.length_nil, not_lt]
  omega

/-- One `append_turn` step preserves the keep-the-last-`2*MAX_TURNS+2`
normal form. -/
theorem append_turn_drop (p : List Msg) (m : Msg) :
    append_turn (p.drop (p.length - (2 * MAX_TURNS + 2))) m =
      (p ++ [m]).drop ((p ++ [m]).length - (2 * MAX_TURNS + 2)) := by
  have hlen : (p ++ [m]).length = p.length + 1 := by simp
  by_cases hp : p.length ≤ 2 * MAX_TURNS + 2
  · rw [Nat.sub_eq_zero_of_le hp, List.drop_zero]
    by_cases hq : p.length + 1 ≤ 2 * MAX_TURNS + 2
    · have h0 : (p ++ [m]).length - (2 * MAX_TURNS + 2) = 0 := by omega
      rw [append_turn_of_le _ _ hq, h0, List.drop_zero]
    · simp only [append_turn]
      have hcond : 2 * MAX_TURNS + 2 < (p ++ [m]).length := by omega
      rw [if_pos hcond]
  · have h18 : (p.drop (p.length - (2 * MAX_TURNS + 2))).length = 2 * MAX_TURNS + 2 := by
      simp only [List.length_drop]; omega
    simp only [append_turn]
    have hcond : 2 * MAX_TURNS + 2 < (p.drop (p.length - (2 * MAX_TURNS + 2)) ++ [m]).length := by
      simp only [List.length_append, List.length_cons, List.length_nil, h18]; omega
    rw [if_pos hcond]
    have h1 : (p.drop (p.length - (2 * MAX_TURNS + 2)) ++ [m]).length - (2 * MAX_TURNS + 2) = 1 := by
      simp only [List.length_append, List.length_cons, List.length_nil, h18]; omega
    rw [h1]
    have h2 : (1 : Nat) ≤ (p.drop (p.length - (2 * MAX_TURNS + 2))).length := by omega
    rw [List.drop_append_of_le_length h2, List.drop_drop]
    have h3 : (p ++ [m]).length - (2 * MAX_TURNS + 2) ≤ p.length := by omega
    rw [List.drop_append_of_le_length h3]
    congr 2
    omega

/-- Occurrence in an appended list either puts the head character of the
pattern inside the left part, or the occurrence lies in the right part. -/
theorem segIn_append_right {p x y : List Char} (c : Char) (hc : p.head? = some c)
    (hx : c ∉ x) (h : SegIn p (x ++ y)) : SegIn p y := by
  cases p with
  | nil => simp at hc
  | cons c' ps =>
    injection hc with hc
    subst hc
    obtain ⟨a, b, hab⟩ := h
    rw [List.append_assoc] at hab
    rcases List.append_eq_append_iff.mp hab with ⟨w, hw1, hw2⟩ | ⟨w, hw1, hw2⟩
    · exact ⟨w, b, by rw [hw2, List.append_assoc]⟩
    · cases w with
      | nil =>
        refine ⟨[], b, ?_⟩
        simp only [List.nil_append] at hw2 ⊢
        exact hw2.symm
      | cons d w' =>
        exfalso
        apply hx
        have hd : c' = d := by
          simp only [List.cons_append] at hw2
          exact (List.cons_eq_cons.mp hw2).1
        rw [hw1, hd]
        exact List.mem_append_right _ (List.mem_cons_self _ _)

/-- Occurrence in a prefix extends to the whole list. -/
theorem segIn_of_take {p t : List Char} {n : Nat} (h : SegIn p (t.take n)) : SegIn p t := by
  obtain ⟨a, b, hab⟩ := h
  refine ⟨a, b ++ t.drop n, ?_⟩
  conv_lhs => rw [← List.take_append_drop n t]
  rw [hab]
  simp

/-- No match means `matchesG` is `false` means `searchTop` is `none`. -/
theorem matchesG_eq_false {r : Re} {t : List Char} :
    matchesG r t = false ↔ searchTop r t = none := by
  unfold matchesG
  cases searchTop r t <;> simp

/-! ### Claims -/

/-- C3: `classify_message` evaluates the pattern groups in strict
descending severity order — imminent, high_risk, nssi, third_person,
toxic, ok — and returns the label of the first group with a match; in
particular any text the imminent group matches is labelled `imminent`
regardless of lower-severity matches. -/
theorem classify_message_order (t : List Char) :
    ((classify_message t).1 = "imminent" ↔ matchesG IMMINENT_RE t = true) ∧
    ((classify_message t).1 = "high_risk" ↔
      (matchesG IMMINENT_RE t = false ∧ matchesG HIGH_RISK_RE t = true)) ∧
    ((classify_message t).1 = "nssi" ↔
      (matchesG IMMINENT_RE t = false ∧ matchesG HIGH_RISK_RE t = false ∧
       matchesG NSSI_RE t = true)) ∧
    ((classify_message t).1 = "third_person" ↔
      (matchesG IMMINENT_RE t = false ∧ matchesG HIGH_RISK_RE t = false ∧
       matchesG NSSI_RE t = false ∧ matchesG THIRD_RE t = true)) ∧
    ((classify_message t).1 = "toxic" ↔
      (matchesG IMMINENT_RE t = false ∧ matchesG HIGH_RISK_RE t = false ∧
       matchesG NSSI_RE t = false ∧ matchesG THIRD_RE t = false ∧
       matchesG TOXIC_RE t = true)) ∧
    ((classify_message t).1 = "ok" ↔
      (matchesG IMMINENT_RE t = false ∧ matchesG HIGH_RISK_RE t = false ∧
       matchesG NSSI_RE t = false ∧ matchesG THIRD_RE t = false ∧
       matchesG TOXIC_RE t = false)) := by
  unfold classify_message matchesG
  cases h1 : searchTop IMMINENT_RE t with
  | some m => simp [h1]
  | none =>
    cases h2 : searchTop HIGH_RISK_RE t with
    | some m => simp [h1, h2]
    | none =>
      cases h3 : searchTop NSSI_RE t with
      | some m => simp [h1, h2, h3]
      | none =>
        cases h4 : searchTop THIRD_RE t with
        | some m => simp [h1, h2, h3, h4]
        | none =>
          cases h5 : searchTop TOXIC_RE t with
          | some m => simp [h1, h2, h3, h4, h5]
          | none => simp [h1, h2, h3, h4, h5]

/-- C5: starting from an empty conversation, any sequence of `append_turn`
calls leaves exactly the most recent `2*MAX_TURNS + 2` turns, in their
original insertion order, so the history length never exceeds the bound. -/
theorem append_turn_bound (ts : List Msg) :
    List.foldl append_turn [] ts = ts.drop (ts.length - (2 * MAX_TURNS + 2)) ∧
    (List.foldl append_turn [] ts).length ≤ 2 * MAX_TURNS + 2 := by
  have main : List.foldl append_turn [] ts = ts.drop (ts.length - (2 * MAX_TURNS + 2)) := by
    induction ts using List.reverseRecOn with
    | nil => simp
    | append_singleton l m ih =>
      rw [List.foldl_append, List.foldl_cons, List.foldl_nil, ih]
      exact append_turn_drop l m
  refine ⟨main, ?_⟩
  rw [main]
  simp only [List.length_drop]
  omega

/-- C9: on a crisis-labelled message the handler leaves the conversation
history untouched (no user turn appended, no system turn inserted), never
calls the generative backend, and the only state change is overwriting the
pending safety-context slot with the redacted summary. -/
theorem crisis_frame_effect (st : ConvState) (t : List Char)
    (bk : List Msg → Except String (List Char))
    (h : (classify_message t).1 ∈ ["imminent", "high_risk", "nssi", "third_person"]) :
    (text_handler st t bk).final.history = st.history ∧
    (text_handler st t bk).final.safeCtx = some (build_safe_summary t) ∧
    (text_handler st t bk).backendCalled = false ∧
    (text_handler st t bk).backendArg = none := by
  simp only [text_handler]
  rw [if_pos h]
  exact ⟨rfl, rfl, rfl, rfl⟩

set_option maxRecDepth 1000000 in
/-- C9 witness: a high_risk message on a conversation with existing
history and a previously stashed context. -/
theorem crisis_frame_effect_witness :
    (text_handler ⟨[⟨"user", "привет".data⟩], some "старый".data⟩ "я хочу умереть".data
        (fun _ => .ok [])).final.history = [⟨"user", "привет".data⟩] ∧
    (text_handler ⟨[⟨"user", "привет".data⟩], some "старый".data⟩ "я хочу умереть".data
        (fun _ => .ok [])).final.safeCtx =
      some (build_safe_summary "я хочу умереть".data) ∧
    (text_handler ⟨[⟨"user", "привет".data⟩], some "старый".data⟩ "я хочу умереть".data
        (fun _ => .ok [])).backendCalled = false ∧
    (text_handler ⟨[⟨"user", "привет".data⟩], some "старый".data⟩ "я хочу умереть".data
        (fun _ => .ok [])).backendArg = none :=
  crisis_frame_effect ⟨[⟨"user", "привет".data⟩], some "старый".data⟩
    "я хочу умереть".data (fun _ => .ok []) (by decide)

set_option maxRecDepth 1000000 in
/-- C2: on the high_risk message `"я хочу умереть"` the handler stores the
redacted summary and never calls the backend, but — because the code
indexes `CRISIS_PRESETS[...]` with the `Ellipsis` key — the lookup raises
`KeyError` and no crisis payload is sent, even though the dict does hold a
payload under the proper `"high_risk"` key. -/
theorem crisis_preset_keyerror :
    (text_handler ⟨[], none⟩ "я хочу умереть".data (fun _ => .ok "о".data)).crashed = true ∧
    (text_handler ⟨[], none⟩ "я хочу умереть".data (fun _ => .ok "о".data)).sent = [] ∧
    (text_handler ⟨[], none⟩ "я хочу умереть".data (fun _ => .ok "о".data)).backendCalled
      = false ∧
    (text_handler ⟨[], none⟩ "я хочу умереть".data (fun _ => .ok "о".data)).final.history
      = [] ∧
    (text_handler ⟨[], none⟩ "я хочу умереть".data (fun _ => .ok "о".data)).final.safeCtx
      = some (build_safe_summary "я хочу умереть".data) ∧
    lookupPreset .ell = none ∧
    (lookupPreset (.k "high_risk")).isSome = true := by
  decide

/-- C7: a toxic message gets the fixed de-escalation acknowledgement as the
first outbound message and still proceeds to the generative path: the raw
text is appended as the user turn of the backend request and the backend is
invoked. -/
theorem toxic_still_generative (st : ConvState) (t : List Char) (r : List Char)
    (h : (classify_message t).1 = "toxic") :
    (text_handler st t (fun _ => .ok r)).sent.head? = some TOXIC_ACK.data ∧
    (text_handler st t (fun _ => .ok r)).backendCalled = true ∧
    ∃ req, (text_handler st t (fun _ => .ok r)).backendArg = some req ∧
      req.getLast? = some ⟨"user", t⟩ := by
  simp only [text_handler, h]
  rw [if_neg (by decide)]
  refine ⟨by simp, rfl, _, rfl, append_turn_getLast _ _⟩

set_option maxRecDepth 1000000 in
/-- C7 witness: the toxic scenario input from the spec. -/
theorem toxic_still_generative_witness :
    (text_handler ⟨[], none⟩ "все уроды, ненавижу всех".data
        (fun _ => .ok "хорошо".data)).sent.head? = some TOXIC_ACK.data ∧
    (text_handler ⟨[], none⟩ "все уроды, ненавижу всех".data
        (fun _ => .ok "хорошо".data)).backendCalled = true ∧
    ∃ req, (text_handler ⟨[], none⟩ "все уроды, ненавижу всех".data
        (fun _ => .ok "хорошо".data)).backendArg = some req ∧
      req.getLast? = some ⟨"user", "все уроды, ненавижу всех".data⟩ :=
  toxic_still_generative ⟨[], none⟩ "все уроды, ненавижу всех".data "хорошо".data (by decide)

set_option maxRecDepth 1000000 in
/-- `html.escape` leaves the fallback text unchanged (it contains no
escapable characters). -/
theorem htmlEscape_fallback : htmlEscape FALLBACK_REPLY.data = FALLBACK_REPLY.data := by
  decide

set_option maxRecDepth 1000000 in
/-- C6 counterexample: with a failing backend on a benign message, the
outbound message is the fallback text with the fixed safety footer
appended — not the fallback text verbatim, as the claim states. -/
theorem fallback_not_verbatim :
    (text_handler ⟨[], none⟩ "привет".data (fun _ => .error "Timeout")).sent =
      [FALLBACK_REPLY.data ++ SAFETY_FOOTER_HTML.data] ∧
    FALLBACK_REPLY.data ++ SAFETY_FOOTER_HTML.data ≠ FALLBACK_REPLY.data := by
  decide

/-- C6 (amended): on any backend failure on the generative path, the last
outbound message is the fixed fallback text followed by the fixed safety
footer (the fallback body is unchanged by escaping), the fallback text
itself is appended to history as the assistant turn, and the outcome is
independent of the error's content — the raw error never surfaces. -/
theorem backend_failure_fallback (st : ConvState) (t : List Char) (e : String)
    (h : (classify_message t).1 ∉ ["imminent", "high_risk", "nssi", "third_person"]) :
    (text_handler st t (fun _ => .error e)).sent.getLast? =
      some (FALLBACK_REPLY.data ++ SAFETY_FOOTER_HTML.data) ∧
    (text_handler st t (fun _ => .error e)).final.history.getLast? =
      some (⟨"assistant", FALLBACK_REPLY.data⟩ : Msg) ∧
    text_handler st t (fun _ => .error e) = text_handler st t (fun _ => .error "") := by
  simp only [text_handler]
  rw [if_neg h]
  refine ⟨?_, ?_, trivial⟩
  · rw [List.getLast?_concat]
    rw [render_with_footer, htmlEscape_fallback]
  · exact append_turn_getLast _ _

set_option maxRecDepth 1000000 in
/-- C6 witness: a timeout on a benign message in a fresh conversation. -/
theorem backend_failure_fallback_witness :
    (text_handler ⟨[], none⟩ "привет".data (fun _ => .error "Timeout")).sent.getLast? =
      some (FALLBACK_REPLY.data ++ SAFETY_FOOTER_HTML.data) ∧
    (text_handler ⟨[], none⟩ "привет".data (fun _ => .error "Timeout")).final.history.getLast? =
      some (⟨"assistant", FALLBACK_REPLY.data⟩ : Msg) ∧
    text_handler ⟨[], none⟩ "привет".data (fun _ => .error "Timeout") =
      text_handler ⟨[], none⟩ "привет".data (fun _ => .error "") :=
  backend_failure_fallback ⟨[], none⟩ "привет".data "Timeout" (by decide)

set_option maxRecDepth 1000000 in
/-- C4 counterexample: on a benign message with a stashed pending context
and a non-empty history, the handler inserts the context turn at index 0
of the backend request, while the turn immediately preceding the new user
turn (index 3 of this five-turn request) is the old assistant turn — so
the context system turn is not positioned immediately before the user
turn. -/
theorem pending_context_not_adjacent :
    (text_handler ⟨[⟨"system", SYSTEM_PROMPT.data⟩, ⟨"user", "привет".data⟩,
        ⟨"assistant", "ок".data⟩], some "контекст".data⟩
      "спасибо, мне помогло".data (fun _ => .ok "ответ".data)).backendArg =
      some [⟨"system", "контекст".data⟩, ⟨"system", SYSTEM_PROMPT.data⟩,
            ⟨"user", "привет".data⟩, ⟨"assistant", "ок".data⟩,
            ⟨"user", "спасибо, мне помогло".data⟩] ∧
    ([(⟨"system", "контекст".data⟩ : Msg), ⟨"system", SYSTEM_PROMPT.data⟩,
      ⟨"user", "привет".data⟩, ⟨"assistant", "ок".data⟩,
      ⟨"user", "спасибо, мне помогло".data⟩][3]? ≠
        some (⟨"system", "контекст".data⟩ : Msg)) := by
  decide

/-- C4 (amended): on a non-crisis (Benign or Toxic) message with a stashed
non-empty pending context, the handler inserts the context as one `system`
turn at the front
(index 0) of the history — not adjacent to the new user turn — the backend
request contains that turn exactly once (when it was not already present
and the request stays within the `2*MAX_TURNS + 2` bound, which also keeps
truncation from evicting it), and the pending slot is empty afterwards. -/
theorem pending_context_front_insert (st : ConvState) (t ctx r : List Char)
    (hok : (classify_message t).1 ∉ ["imminent", "high_risk", "nssi", "third_person"])
    (hctx : st.safeCtx = some ctx) (hne : ctx ≠ [])
    (hbound : (if st.history.isEmpty then [(⟨"system", SYSTEM_PROMPT.data⟩ : Msg)]
        else st.history).length + 2 ≤ 2 * MAX_TURNS + 2)
    (hnot : (⟨"system", ctx⟩ : Msg) ∉ (if st.history.isEmpty then
        [(⟨"system", SYSTEM_PROMPT.data⟩ : Msg)] else st.history)) :
    (text_handler st t (fun _ => .ok r)).backendArg =
      some ((⟨"system", ctx⟩ : Msg) :: ((if st.history.isEmpty then
        [(⟨"system", SYSTEM_PROMPT.data⟩ : Msg)] else st.history) ++ [⟨"user", t⟩])) ∧
    ((⟨"system", ctx⟩ : Msg) :: ((if st.history.isEmpty then
        [(⟨"system", SYSTEM_PROMPT.data⟩ : Msg)] else st.history) ++ [⟨"user", t⟩])).count
      ⟨"system", ctx⟩ = 1 ∧
    (text_handler st t (fun _ => .ok r)).final.safeCtx = none := by
  have hcempty : ctx.isEmpty = false := by
    cases ctx with
    | nil => exact absurd rfl hne
    | cons c cs => rfl
  have hcount : ((⟨"system", ctx⟩ : Msg) :: ((if st.history.isEmpty then
      [(⟨"system", SYSTEM_PROMPT.data⟩ : Msg)] else st.history) ++ [⟨"user", t⟩])).count
      (⟨"system", ctx⟩ : Msg) = 1 := by
    rw [List.count_cons_self, List.count_append]
    rw [List.count_eq_zero_of_not_mem hnot, List.count_eq_zero_of_not_mem]
    simp only [List.mem_singleton]
    intro hcon
    simp only [Msg.mk.injEq] at hcon
    exact absurd hcon.1 (by decide)
  refine ⟨?_, hcount, ?_⟩
  · simp only [text_handler]
    rw [if_neg hok]
    cases hh : st.history with
    | nil =>
      rw [hh] at hbound
      simp only [List.isEmpty_nil, if_true] at hbound
      simp only [hh, List.isEmpty_nil, if_true, hctx, hcempty, Bool.false_eq_true, if_false]
      rw [show append_turn ([] : List Msg) (⟨"system", SYSTEM_PROMPT.data⟩ : Msg) =
        [(⟨"system", SYSTEM_PROMPT.data⟩ : Msg)] from rfl]
      rw [append_turn_of_le _ _ (by simp only [List.length_cons,
        List.length_singleton] at hbound ⊢; omega)]
      simp
    | cons m ms =>
      rw [hh] at hbound
      simp only [List.isEmpty_cons, Bool.false_eq_true, if_false] at hbound
      simp only [hh, List.isEmpty_cons, if_false, hctx, hcempty, Bool.false_eq_true]
      rw [append_turn_of_le _ _ (by simp only [List.length_cons] at hbound ⊢; omega)]
      simp
  · simp only [text_handler]
    rw [if_neg hok]

set_option maxRecDepth 1000000 in
/-- C4 witness: the scenario-2 input on a three-turn history with a
stashed context. -/
theorem pending_context_front_insert_witness :
    (text_handler ⟨[⟨"system", SYSTEM_PROMPT.data⟩, ⟨"user", "привет".data⟩,
        ⟨"assistant", "ок".data⟩], some "контекст".data⟩
      "спасибо, мне помогло".data (fun _ => .ok "ответ".data)).backendArg =
      some ((⟨"system", "контекст".data⟩ : Msg) :: ((if ([(⟨"system", SYSTEM_PROMPT.data⟩ : Msg),
        ⟨"user", "привет".data⟩, ⟨"assistant", "ок".data⟩] : List Msg).isEmpty then
        [(⟨"system", SYSTEM_PROMPT.data⟩ : Msg)] else [⟨"system", SYSTEM_PROMPT.data⟩,
        ⟨"user", "привет".data⟩, ⟨"assistant", "ок".data⟩]) ++
        [⟨"user", "спасибо, мне помогло".data⟩])) ∧
    ((⟨"system", "контекст".data⟩ : Msg) :: ((if ([(⟨"system", SYSTEM_PROMPT.data⟩ : Msg),
        ⟨"user", "привет".data⟩, ⟨"assistant", "ок".data⟩] : List Msg).isEmpty then
        [(⟨"system", SYSTEM_PROMPT.data⟩ : Msg)] else [⟨"system", SYSTEM_PROMPT.data⟩,
        ⟨"user", "привет".data⟩, ⟨"assistant", "ок".data⟩]) ++
        [⟨"user", "спасибо, мне помогло".data⟩])).count ⟨"system", "контекст".data⟩ = 1 ∧
    (text_handler ⟨[⟨"system", SYSTEM_PROMPT.data⟩, ⟨"user", "привет".data⟩,
        ⟨"assistant", "ок".data⟩], some "контекст".data⟩
      "спасибо, мне помогло".data (fun _ => .ok "ответ".data)).final.safeCtx = none :=
  pending_context_front_insert
    ⟨[⟨"system", SYSTEM_PROMPT.data⟩, ⟨"user", "привет".data⟩,
      ⟨"assistant", "ок".data⟩], some "контекст".data⟩
    "спасибо, мне помогло".data "контекст".data "ответ".data
    (by decide) rfl (by decide) (by decide) (by decide)

set_option maxRecDepth 1000000 in
/-- C1 counterexample: in `"хочу умереть да яхочу умереть"` the HighRisk
group matches with evidence span `"хочу умереть"`, yet the summary
returned by `build_safe_summary` still contains that flagged substring
verbatim (inside the longer word `"яхочу"`, where the word-boundary
anchored pattern does not match, so `re.sub` leaves it in place). -/
theorem redaction_leak :
    classify_message "хочу умереть да яхочу умереть".data =
      ("high_risk", "хочу умереть".data) ∧
    occursIn "хочу умереть".data
      (build_safe_summary "хочу умереть да яхочу умереть".data) = true := by
  decide

/-- C1 (amended): each group substitution of `build_safe_summary` replaces
the occurrences found by its leftmost non-overlapping scan with that
group's fixed placeholder — whenever a group matches its stage input, the
placeholder appears in that stage's output — and the summary is the fixed
prefix plus the first 500 characters of the redacted text; however, a
flagged substring can still appear verbatim in the output through another
occurrence that the pattern does not match in context (e.g. embedded
inside a longer word). -/
theorem redaction_stages (t : List Char) :
    (matchesG IMMINENT_RE t = true →
      ∃ a b, redact1 t = a ++ REDACT_IMMINENT.data ++ b) ∧
    (matchesG HIGH_RISK_RE (redact1 t) = true →
      ∃ a b, redact2 t = a ++ REDACT_HIGH.data ++ b) ∧
    (matchesG NSSI_RE (redact2 t) = true →
      ∃ a b, redact3 t = a ++ REDACT_NSSI.data ++ b) ∧
    build_safe_summary t = SUMMARY_PREFIX.data ++ (redact3 t).take 500 := by
  refine ⟨?_, ?_, ?_, rfl⟩
  · intro h
    obtain ⟨res, hres⟩ := Option.isSome_iff_exists.mp h
    exact pySub_placeholder hres
  · intro h
    obtain ⟨res, hres⟩ := Option.isSome_iff_exists.mp h
    exact pySub_placeholder hres
  · intro h
    obtain ⟨res, hres⟩ := Option.isSome_iff_exists.mp h
    exact pySub_placeholder hres

set_option maxRecDepth 1000000 in
/-- C1 witness: an input where all three groups match at their stage. -/
theorem redaction_stages_witness :
    (∃ a b, redact1 "повешусь и режу себя и хочу умереть".data =
      a ++ REDACT_IMMINENT.data ++ b) ∧
    (∃ a b, redact2 "повешусь и режу себя и хочу умереть".data =
      a ++ REDACT_HIGH.data ++ b) ∧
    (∃ a b, redact3 "повешусь и режу себя и хочу умереть".data =
      a ++ REDACT_NSSI.data ++ b) :=
  ⟨(redaction_stages "повешусь и режу себя и хочу умереть".data).1 (by decide),
   (redaction_stages "повешусь и режу себя и хочу умереть".data).2.1 (by decide),
   (redaction_stages "повешусь и режу себя и хочу умереть".data).2.2.1 (by decide)⟩

set_option maxRecDepth 1000000 in
/-- C8 counterexample: a text with no crisis-pattern match whose summary is
longer than 500 characters (only the cleaned tail is capped at 500; the
fixed prefix comes on top) and which carries a pre-existing placeholder
token straight into the output. -/
theorem summary_exceeds_cap :
    matchesG IMMINENT_RE ("[высокий риск]".data ++ List.replicate 300 'a') = false ∧
    matchesG HIGH_RISK_RE ("[высокий риск]".data ++ List.replicate 300 'a') = false ∧
    matchesG NSSI_RE ("[высокий риск]".data ++ List.replicate 300 'a') = false ∧
    500 < (build_safe_summary ("[высокий риск]".data ++ List.replicate 300 'a')).length ∧
    occursIn REDACT_HIGH.data
      (build_safe_summary ("[высокий риск]".data ++ List.replicate 300 'a')) = true := by
  decide

/-- C8 (amended): on text without Imminent/HighRisk/NSSI matches the
summary is the fixed prefix plus the first 500 characters of the text
unchanged, so its length is at most the prefix length plus 500, and no
placeholder token appears unless the text itself already contained one. -/
theorem summary_no_crisis (t : List Char)
    (h1 : matchesG IMMINENT_RE t = false) (h2 : matchesG HIGH_RISK_RE t = false)
    (h3 : matchesG NSSI_RE t = false) :
    build_safe_summary t = SUMMARY_PREFIX.data ++ t.take 500 ∧
    (build_safe_summary t).length ≤ SUMMARY_PREFIX.data.length + 500 ∧
    ∀ p ∈ [REDACT_IMMINENT.data, REDACT_HIGH.data, REDACT_NSSI.data],
      ¬ SegIn p t → ¬ SegIn p (build_safe_summary t) := by
  have e1 : redact1 t = t := pySub_of_search_none (matchesG_eq_false.mp h1)
  have e2 : redact2 t = t := by
    rw [redact2, e1]
    exact pySub_of_search_none (matchesG_eq_false.mp h2)
  have e3 : redact3 t = t := by
    rw [redact3, e2]
    exact pySub_of_search_none (matchesG_eq_false.mp h3)
  have hb : build_safe_summary t = SUMMARY_PREFIX.data ++ t.take 500 := by
    rw [build_safe_summary, e3]
  refine ⟨hb, ?_, ?_⟩
  · rw [hb]
    simp only [List.length_append, List.length_take]
    have := Nat.min_le_left 500 t.length
    omega
  · intro p hp hnp hseg
    rw [hb] at hseg
    have hbr : '\x5b' ∉ SUMMARY_PREFIX.data := by decide
    have hhd : p.head? = some '\x5b' := by
      rcases (by simpa using hp : p = REDACT_IMMINENT.data ∨ p = REDACT_HIGH.data ∨
        p = REDACT_NSSI.data) with rfl | rfl | rfl <;> rfl
    exact hnp (segIn_of_take (segIn_append_right _ hhd hbr hseg))

set_option maxRecDepth 1000000 in
/-- C8 witness: a benign thank-you message. -/
theorem summary_no_crisis_witness :
    build_safe_summary "спасибо".data =
      SUMMARY_PREFIX.data ++ ("спасибо".data).take 500 ∧
    (build_safe_summary "спасибо".data).length ≤ SUMMARY_PREFIX.data.length + 500 ∧
    ∀ p ∈ [REDACT_IMMINENT.data, REDACT_HIGH.data, REDACT_NSSI.data],
      ¬ SegIn p "спасибо".data → ¬ SegIn p (build_safe_summary "спасибо".data) :=
  summary_no_crisis "спасибо".data (by decide) (by decide) (by decide)

set_option maxRecDepth 1000000 in
/-- C10 counterexample: a text whose only match is the third-person group,
but the match sits past the 500-character cap, so the summary does not
contain the matched substring. -/
theorem third_party_truncated :
    (classify_message (List.replicate 490 '.' ++ "она хочет умереть".data)).1 =
      "third_person" ∧
    (classify_message (List.replicate 490 '.' ++ "она хочет умереть".data)).2 =
      "она хочет умереть".data ∧
    occursIn "она хочет умереть".data
      (build_safe_summary (List.replicate 490 '.' ++ "она хочет умереть".data)) = false := by
  decide

/-- C10 (amended): on text without Imminent/HighRisk/NSSI matches that fits
inside the 500-character cap, a third-person match is carried into the
summary verbatim — the redaction substitutes only the three self-risk
groups, never the third-person group. -/
theorem third_party_kept (t : List Char) (res : Found)
    (h1 : matchesG IMMINENT_RE t = false) (h2 : matchesG HIGH_RISK_RE t = false)
    (h3 : matchesG NSSI_RE t = false) (hlen : t.length ≤ 500)
    (h4 : searchTop THIRD_RE t = some res) :
    SegIn res.matched (build_safe_summary t) := by
  have e1 : redact1 t = t := pySub_of_search_none (matchesG_eq_false.mp h1)
  have e2 : redact2 t = t := by
    rw [redact2, e1]
    exact pySub_of_search_none (matchesG_eq_false.mp h2)
  have e3 : redact3 t = t := by
    rw [redact3, e2]
    exact pySub_of_search_none (matchesG_eq_false.mp h3)
  have hb : build_safe_summary t = SUMMARY_PREFIX.data ++ t := by
    rw [build_safe_summary, e3, List.take_of_length_le hlen]
  have hdec := searchTop_decomp h4
  rw [hb, ← hdec]
  exact ⟨SUMMARY_PREFIX.data ++ res.skipRev.reverse, res.rest, by simp⟩

set_option maxRecDepth 1000000 in
/-- C10 witness: a short third-person message survives into the summary. -/
theorem third_party_kept_witness :
    SegIn "она хочет умереть".data (build_safe_summary "она хочет умереть".data) :=
  third_party_kept "она хочет умереть".data
    ⟨[], "она хочет умереть".data, "она хочет умереть".data.reverse, []⟩
    (by decide) (by decide) (by decide) (by decide) (by decide)

end HelplineBot
